import Mathlib

/-!
Shallow embedding of `src/plaintext_daily_bot.py` (the plaintext.daily
Telegram bot) and proofs about its generation pipeline.

Modelling conventions:
- PIL images are modelled as a size, a pixel mode, and an ordered list of
  overlay `Mark`s recording every drawing/compositing call with its
  arguments; PIL drawing calls append a mark.
- Python floats: the source computes `int(img.width * 0.12)` and
  `int(img.width * 0.16)`.  These are modelled by exact natural division
  `w * 12 / 100` and `w * 16 / 100`; for every width below 2^40 the
  IEEE-754 double computation agrees with the exact rational floor, since
  the relative rounding error (≤ 2^-52) never moves the product across an
  integer boundary there.
- Exceptions: every statement in the source that can raise is given an
  explicit failure branch.  External effects (HTTP responses, the logo
  fetch, image decoding, font metrics) enter as parameters describing the
  outcome of the effect, so the functions are total over all outcomes.
-/

/-- Pixel modes of a PIL image; the pipeline only distinguishes RGBA from
the rest (`.convert("RGBA")` produces `RGBA`). -/
inductive PixMode
  | RGBA
  | RGB
  | L
deriving DecidableEq

/-- One overlay operation applied to an image, recording the arguments of
the PIL call that produced it:
- `ellipse x0 y0 x1 y1 fill` records `draw.ellipse((x0,y0,x1,y1), fill=fill)`
  (coordinates are Python ints, possibly negative for small images);
- `glyph cx cy tw th s fill` records the `draw.text` call of the fallback
  mark: the text `s` of measured size `(tw, th)` drawn at
  `(cx - tw/2, cy - th/2)` in color `fill`;
- `logo x y w h` records `img.alpha_composite(logo, (x, y))` where the
  fetched logo was resized to `w × h` (dest coordinates are non-negative,
  PIL raises otherwise). -/
inductive Mark
  | ellipse (x0 y0 x1 y1 : Int) (fill : String)
  | glyph (cx cy : Int) (tw th : Nat) (s : String) (fill : String)
  | logo (x y : Nat) (w h : Nat)
deriving DecidableEq

/-- An in-memory raster image: dimensions, pixel mode, and the overlay
marks composited onto its base raster, in application order. -/
structure Image where
  width : Nat
  height : Nat
  mode : PixMode
  marks : List Mark
deriving DecidableEq

/-- `img.copy()`: a fresh buffer with identical contents.  At the value
level the copy is equal to the original; buffer identity is tracked
separately by the `BufState` model below. -/
def Image.copy (im : Image) : Image := im

/-- `img.convert("RGBA")`. -/
def Image.convertRGBA (im : Image) : Image := { im with mode := PixMode.RGBA }

/-- The environment-derived configuration read at module load (lines
44-48 of the source): brand colors with their defaults and the optional
logo URL (stripped; empty string means unset). -/
structure Env where
  BRAND_PRIMARY : String
  BRAND_CREAM : String
  LOGO_URL : String
deriving DecidableEq

/-- The defaults used when the corresponding variables are absent from the
environment. -/
def defaultEnv : Env :=
  { BRAND_PRIMARY := "#2F3435"
    BRAND_CREAM := "#F4EFE2"
    LOGO_URL := "" }

/-- `int(logo.height * ratio)` with `ratio = w / logo.width` (lines
114-115): the resized logo height.  Modelled by exact natural division;
the double-precision computation can differ by one pixel when the exact
product is an integer, which no theorem below depends on. -/
def resizedHeight (lw lh w : Nat) : Nat := lh * w / lw

/-- Lines 120-134 of `add_logo_or_mark`: draw the fallback `pd` roundel.
`font` is the outcome of the inner `try` (lines 127-133):
`some (tw, th)` when `ImageFont.load_default`/`draw.textsize` succeed with
measured text size `(tw, th)`, `none` when they raise (the exception is
swallowed and only the ellipse remains). -/
def drawFallback (env : Env) (font : Option (Nat × Nat)) (img : Image) : Image :=
  let r : Nat := img.width * 12 / 100
  let cx : Int := (img.width : Int) - r - 40
  let cy : Int := (img.height : Int) - r - 40
  let img := { img with marks :=
    img.marks ++ [Mark.ellipse (cx - r) (cy - r) (cx + r) (cy + r) env.BRAND_PRIMARY] }
  match font with
  | none => img
  | some (tw, th) => { img with marks :=
      img.marks ++ [Mark.glyph cx cy tw th "pd" env.BRAND_CREAM] }

/-- `add_logo_or_mark` (lines 108-134).  `fetched` is the outcome of
lines 112: `some logo` when `requests.get`, `Image.open` and
`.convert("RGBA")` all succeed with decoded logo `logo`, `none` when any
of them raises (network error, timeout, undecodable payload).  The
remaining failure points of the `try` block are modelled explicitly:
`ratio = w / logo.width` raises ZeroDivisionError when `logo.width = 0`,
and `img.alpha_composite` raises ValueError when `img` is not RGBA or a
destination coordinate is negative; every raise inside the `try` falls
through to the fallback drawing. -/
def add_logo_or_mark (env : Env) (fetched : Option Image)
    (font : Option (Nat × Nat)) (img0 : Image) : Image :=
  let img := img0.copy
  let viaLogo : Option Image :=
    if env.LOGO_URL ≠ "" then
      match fetched with
      | none => none
      | some logo =>
        let w : Nat := img.width * 16 / 100
        if logo.width = 0 then none
        else
          let h : Nat := resizedHeight logo.width logo.height w
          let x : Int := (img.width : Int) - w - 40
          let y : Int := (img.height : Int) - h - 40
          if img.mode = PixMode.RGBA ∧ 0 ≤ x ∧ 0 ≤ y then
            some { img with marks := img.marks ++ [Mark.logo x.toNat y.toNat w h] }
          else none
    else none
  match viaLogo with
  | some out => out
  | none => drawFallback env font img

/-!
Buffer-level model of `add_logo_or_mark`, tracking which raster buffer
each PIL call writes to.  Line 109 rebinds the local name `img` to a fresh
copy before any mutation: the caller's buffer is `callerBuf`, the copy is
`workBuf`, and every subsequent mutating call (`img.alpha_composite`, the
`ImageDraw.Draw(img)` drawing calls) targets the buffer the local `img`
denotes, which is `workBuf` throughout.
-/

/-- Identity of a raster buffer during one `add_logo_or_mark` call. -/
inductive BufId
  | caller
  | work
deriving DecidableEq

/-- The two live buffers during one `add_logo_or_mark` call. -/
structure BufState where
  callerBuf : Image
  workBuf : Image
deriving DecidableEq

/-- Read a buffer. -/
def BufState.read (s : BufState) : BufId → Image
  | BufId.caller => s.callerBuf
  | BufId.work => s.workBuf

/-- Mutate a buffer in place. -/
def BufState.write (s : BufState) (b : BufId) (f : Image → Image) : BufState :=
  match b with
  | BufId.caller => { s with callerBuf := f s.callerBuf }
  | BufId.work => { s with workBuf := f s.workBuf }

/-- Lines 120-134 at the buffer level: both drawing calls go through
`draw = ImageDraw.Draw(img)` and mutate the buffer `imgB` that the local
`img` denotes. -/
def fallbackBuf (env : Env) (font : Option (Nat × Nat)) (s : BufState) (imgB : BufId) :
    BufState :=
  let r : Nat := (s.read imgB).width * 12 / 100
  let cx : Int := ((s.read imgB).width : Int) - r - 40
  let cy : Int := ((s.read imgB).height : Int) - r - 40
  let s := s.write imgB (fun im => { im with marks :=
    im.marks ++ [Mark.ellipse (cx - r) (cy - r) (cx + r) (cy + r) env.BRAND_PRIMARY] })
  match font with
  | none => s
  | some (tw, th) => s.write imgB (fun im => { im with marks :=
      im.marks ++ [Mark.glyph cx cy tw th "pd" env.BRAND_CREAM] })

/-- `add_logo_or_mark` at the buffer level: returns the final state of
both buffers; the function's Python return value is the content of
`BufId.work` (the local `img`). -/
def add_logo_or_mark_buf (env : Env) (fetched : Option Image)
    (font : Option (Nat × Nat)) (input : Image) : BufState :=
  let s : BufState := { callerBuf := input, workBuf := input.copy }
  let imgB := BufId.work
  let viaLogo : Option BufState :=
    if env.LOGO_URL ≠ "" then
      match fetched with
      | none => none
      | some logo =>
        let w : Nat := (s.read imgB).width * 16 / 100
        if logo.width = 0 then none
        else
          let h : Nat := resizedHeight logo.width logo.height w
          let x : Int := ((s.read imgB).width : Int) - w - 40
          let y : Int := ((s.read imgB).height : Int) - h - 40
          if (s.read imgB).mode = PixMode.RGBA ∧ 0 ≤ x ∧ 0 ≤ y then
            some (s.write imgB (fun im => { im with marks :=
              im.marks ++ [Mark.logo x.toNat y.toNat w h] }))
          else none
    else none
  match viaLogo with
  | some s2 => s2
  | none => fallbackBuf env font s imgB

/-!
Generation clients (lines 54-89).  The source raises raw Python
exceptions; the spec's `GenerationFailure` taxonomy names the distinct
exception classes that can escape each client:
`urllib.error.URLError` (connection failure) ↦ `Network`,
`socket.timeout` ↦ `Timeout`,
`urllib.error.HTTPError` (non-2xx status) ↦ `UpstreamError`,
`json.loads` errors and missing-field accesses (`KeyError`/`IndexError`)
↦ `MalformedResponse`,
`base64`/`Image.open` errors on the image payload ↦ `DecodeError`.
-/

/-- The failure taxonomy of the generation clients. -/
inductive GenerationFailure
  | Network
  | Timeout
  | UpstreamError
  | MalformedResponse
  | DecodeError
deriving DecidableEq

/-- Outcome of one `urllib.request.urlopen` call with body type `β`:
`urlopen` raises on connection failure, timeout, or a non-2xx status, and
`json.loads` on the response bytes can fail; `ok` carries a parsed JSON
body. -/
inductive HttpOutcome (β : Type)
  | netError
  | timeout
  | httpError (status : Nat)
  | invalidJson
  | ok (body : β)

/-- `message` object of a chat choice: `content` is `some` when the field
is present (and a string). -/
structure ChatMessage where
  content : Option String
deriving DecidableEq

/-- One element of the `choices` array: `message` is `some` when the
field is present. -/
structure ChatChoice where
  message : Option ChatMessage
deriving DecidableEq

/-- Parsed chat-completion response body: `choices` is `some` when the
field is present (and an array). -/
structure ChatBody where
  choices : Option (List ChatChoice)
deriving DecidableEq

/-- The field access `out["choices"][0]["message"]["content"]` (line 69):
`none` when any step raises (`KeyError` on a missing key, `IndexError` on
an empty array). -/
def chatContent (b : ChatBody) : Option String :=
  match b.choices with
  | none => none
  | some [] => none
  | some (c :: _) =>
    match c.message with
    | none => none
    | some m => m.content

/-- `openai_chat` (lines 54-69) as a function of the HTTP outcome of its
single `urlopen` call: propagates each exception class as the
corresponding `GenerationFailure` kind, and on a well-formed 2xx body
returns the stripped content. -/
def openai_chat (outcome : HttpOutcome ChatBody) : Except GenerationFailure String :=
  match outcome with
  | HttpOutcome.netError => Except.error GenerationFailure.Network
  | HttpOutcome.timeout => Except.error GenerationFailure.Timeout
  | HttpOutcome.httpError _ => Except.error GenerationFailure.UpstreamError
  | HttpOutcome.invalidJson => Except.error GenerationFailure.MalformedResponse
  | HttpOutcome.ok b =>
    match chatContent b with
    | none => Except.error GenerationFailure.MalformedResponse
    | some c => Except.ok c.trim

/-- One element of the image response's `data` array: `b64_json` is
`some` when the field is present. -/
structure ImageDatum where
  b64_json : Option String
deriving DecidableEq

/-- Parsed image-generation response body. -/
structure ImageBody where
  data : Option (List ImageDatum)
deriving DecidableEq

/-- The field access `out["data"][0]["b64_json"]` (line 87): `none` when
any step raises. -/
def imageB64 (b : ImageBody) : Option String :=
  match b.data with
  | none => none
  | some [] => none
  | some (d :: _) => d.b64_json

/-- `openai_image` (lines 72-89) as a function of the HTTP outcome and of
the base64-decode/`Image.open` step (`decode`, `none` when the payload is
undecodable): on success the decoded image is converted to RGBA. -/
def openai_image (outcome : HttpOutcome ImageBody) (decode : String → Option Image) :
    Except GenerationFailure Image :=
  match outcome with
  | HttpOutcome.netError => Except.error GenerationFailure.Network
  | HttpOutcome.timeout => Except.error GenerationFailure.Timeout
  | HttpOutcome.httpError _ => Except.error GenerationFailure.UpstreamError
  | HttpOutcome.invalidJson => Except.error GenerationFailure.MalformedResponse
  | HttpOutcome.ok b =>
    match imageB64 b with
    | none => Except.error GenerationFailure.MalformedResponse
    | some s =>
      match decode s with
      | none => Except.error GenerationFailure.DecodeError
      | some im => Except.ok im.convertRGBA

/-!
Brand constants (lines 94-105) and the command handlers (lines 154-185).
Handlers are modelled as functions of the argument list and of the
generation clients' behavior; the clients are passed as functions from
the prompt to their result, and a client failure propagates out of the
handler (no handler catches exceptions).
-/

/-- `VOICE` (lines 94-97). -/
def VOICE : String :=
  "You are the voice of \x27plaintext.daily\x27 — internet field notes, practical > perfect. Tone: minimal, direct, calm, anti-hype. One idea per post. Keep 12–18 words if possible."

/-- `HASHTAGS` (line 99). -/
def HASHTAGS : String :=
  "#plaintextdaily #internetfieldnotes #practicaloverperfect #makerhabits #shipdaily #minimaldesign"

/-- `STYLE_PROMPT` (lines 101-105). -/
def STYLE_PROMPT : String :=
  "Minimal, type-forward square card. Warm cream background (#F4EFE2), charcoal text (#2F3435). Use whitespace, subtle grain, tiny geometric accent (dot or line). Optional small \x27pd\x27 roundel bottom-right. No photos, no gradients."

/-- Line 155: `" ".join(context.args) or "a tiny workflow habit that compounds"`
(Python `or` takes the right operand when the joined string is empty). -/
def caption_topic (args : List String) : String :=
  let t := String.intercalate " " args
  if t = "" then "a tiny workflow habit that compounds" else t

/-- The prompt f-string of `caption` (lines 156-159). -/
def caption_prompt (topic : String) : String :=
  (VOICE ++ " Write one Instagram caption about: ") ++ topic ++
    ". 1-2 short sentences. End with: \x27practical > perfect\x27. No emojis."

/-- The `caption` handler (lines 154-161): builds the prompt, calls the
chat client, and replies with the text followed by the hashtag block; a
client failure propagates. -/
def caption (args : List String) (chat : String → Except GenerationFailure String) :
    Except GenerationFailure String :=
  match chat (caption_prompt (caption_topic args)) with
  | Except.error e => Except.error e
  | Except.ok text => Except.ok (text ++ "\n\n" ++ HASHTAGS)

/-- Line 165: `" ".join(context.args) or "one simple framework to ship daily"`. -/
def post_topic (args : List String) : String :=
  let t := String.intercalate " " args
  if t = "" then "one simple framework to ship daily" else t

/-- The caption prompt f-string of `post` (lines 167-170). -/
def post_cap_prompt (topic : String) : String :=
  (VOICE ++ " Write 1–2 short sentences for Instagram about: ") ++ topic ++
    ". Make it crisp, zero fluff. End with \x27practical > perfect\x27."

/-- The image prompt f-string of `post` (lines 174-176). -/
def post_img_prompt (topic : String) : String :=
  (STYLE_PROMPT ++ " Content text theme: ") ++ topic ++
    ". Render as a clean poster (no photo)."

/-- The bundled reply of one `post` run: the photo caption string sent
with the PNG and the composited image encoded into it. -/
structure PostArtifact where
  caption : String
  image : Image
deriving DecidableEq

/-- The `post` handler (lines 164-185): builds both prompts, calls the
chat client then the image client, composites the mark, and bundles the
reply; a failure from either client propagates before anything is sent. -/
def post (env : Env) (args : List String)
    (chat : String → Except GenerationFailure String)
    (image : String → Except GenerationFailure Image)
    (fetched : Option Image) (font : Option (Nat × Nat)) :
    Except GenerationFailure PostArtifact :=
  let topic := post_topic args
  match chat (post_cap_prompt topic) with
  | Except.error e => Except.error e
  | Except.ok caption_text =>
    match image (post_img_prompt topic) with
    | Except.error e => Except.error e
    | Except.ok img =>
      let img := add_logo_or_mark env fetched font img
      Except.ok { caption := caption_text ++ "\n\n" ++ HASHTAGS, image := img }

/-- `img.marks` contains a filled circle of radius `r` centered at
`(cx, cy)` in color `fill`: the recorded `draw.ellipse` bounding box is
`(cx - r, cy - r, cx + r, cy + r)`. -/
def containsCircle (img : Image) (cx cy r : Int) (fill : String) : Prop :=
  Mark.ellipse (cx - r) (cy - r) (cx + r) (cy + r) fill ∈ img.marks

instance (img : Image) (cx cy r : Int) (fill : String) :
    Decidable (containsCircle img cx cy r fill) := by
  unfold containsCircle
  infer_instance

/-- A substring occurs verbatim in a string. -/
def containsSubstr (needle hay : String) : Prop :=
  ∃ a b : String, hay = a ++ needle ++ b

theorem applyMark_none_eq_fallback (env : Env) (font : Option (Nat × Nat)) (img : Image) :
    add_logo_or_mark env none font img = drawFallback env font img := by
  simp [add_logo_or_mark, Image.copy]

theorem applyMark_unset_eq_fallback (env : Env) (fetched : Option Image)
    (font : Option (Nat × Nat)) (img : Image) (h : env.LOGO_URL = "") :
    add_logo_or_mark env fetched font img = drawFallback env font img := by
  simp [add_logo_or_mark, Image.copy, h]

theorem applyMark_cases (env : Env) (fetched : Option Image)
    (font : Option (Nat × Nat)) (img : Image) :
    add_logo_or_mark env fetched font img = drawFallback env font img ∨
    ∃ x y w h, add_logo_or_mark env fetched font img =
      { img with marks := img.marks ++ [Mark.logo x y w h] } := by
  simp only [add_logo_or_mark, Image.copy]
  split
  next out heq =>
    right
    split at heq
    · cases fetched with
      | none => simp at heq
      | some logo =>
        simp only [] at heq
        split at heq
        · simp at heq
        · split at heq
          · cases heq
            exact ⟨_, _, _, _, rfl⟩
          · simp at heq
    · simp at heq
  next heq =>
    left
    rfl

theorem drawFallback_mode (env : Env) (font : Option (Nat × Nat)) (img : Image) :
    (drawFallback env font img).mode = img.mode := by
  unfold drawFallback
  cases font with
  | none => rfl
  | some p => cases p with | mk tw th => rfl

theorem applyMark_mode (env : Env) (fetched : Option Image)
    (font : Option (Nat × Nat)) (img : Image) :
    (add_logo_or_mark env fetched font img).mode = img.mode := by
  rcases applyMark_cases env fetched font img with h | ⟨x, y, w, hh, h⟩ <;> rw [h]
  exact drawFallback_mode env font img

theorem drawFallback_contains_circle (env : Env) (font : Option (Nat × Nat)) (img : Image) :
    containsCircle (drawFallback env font img)
      ((img.width : Int) - (img.width * 12 / 100 : Nat) - 40)
      ((img.height : Int) - (img.width * 12 / 100 : Nat) - 40)
      (img.width * 12 / 100 : Nat) env.BRAND_PRIMARY := by
  unfold containsCircle drawFallback
  cases font with
  | none => simp
  | some p => cases p with | mk tw th => simp

theorem append_ne_empty_right (a b : String) (hb : b ≠ "") : a ++ b ≠ "" := by
  intro h
  apply hb
  have hlen := congrArg String.length h
  rw [String.length_append] at hlen
  have hb0 : b.length = 0 := by
    have h0 : (("" : String)).length = 0 := rfl
    omega
  cases b with
  | mk l =>
    cases l with
    | nil => rfl
    | cons c cs => simp [String.length] at hb0

/-- C4: for every `Caption` run, the returned text is the chat client's
result followed by `"\n\n"` and the constant `HASHTAGS` block appended
verbatim once; in particular, for topic `plaintext.daily` and chat result
`"Ship something small today. practical > perfect."`, the handler returns
that string followed by a blank line and the hashtag block. -/
theorem caption_appends_hashtags :
    (∀ (args : List String) (chat : String → Except GenerationFailure String) (t : String),
      chat (caption_prompt (caption_topic args)) = Except.ok t →
      caption args chat = Except.ok (t ++ "\n\n" ++ HASHTAGS)) ∧
    caption ["plaintext.daily"]
        (fun _ => Except.ok "Ship something small today. practical > perfect.") =
      Except.ok "Ship something small today. practical > perfect.\n\n#plaintextdaily #internetfieldnotes #practicaloverperfect #makerhabits #shipdaily #minimaldesign" := by
  constructor
  · intro args chat t h
    simp [caption, h]
  · rfl

theorem caption_appends_hashtags_witness :
    caption ["plaintext.daily"] (fun _ => Except.ok "Ship it.") =
      Except.ok ("Ship it." ++ "\n\n" ++ HASHTAGS) :=
  caption_appends_hashtags.1 ["plaintext.daily"] (fun _ => Except.ok "Ship it.") "Ship it." rfl

/-- C7: each failure of a generation client surfaces as a
`GenerationFailure` whose kind separates transport-level failures
(connection error ↦ `Network`, timeout ↦ `Timeout`, non-2xx status ↦
`UpstreamError`) from a structurally invalid response body (unparsable
JSON or a missing expected field ↦ `MalformedResponse`), and those kinds
are pairwise distinct, so the caller can decide whether to retry. -/
theorem failure_kinds_distinguish :
    openai_chat HttpOutcome.netError = Except.error GenerationFailure.Network ∧
    openai_chat HttpOutcome.timeout = Except.error GenerationFailure.Timeout ∧
    (∀ s, openai_chat (HttpOutcome.httpError s) = Except.error GenerationFailure.UpstreamError) ∧
    openai_chat HttpOutcome.invalidJson = Except.error GenerationFailure.MalformedResponse ∧
    (∀ b, chatContent b = none →
      openai_chat (HttpOutcome.ok b) = Except.error GenerationFailure.MalformedResponse) ∧
    (∀ b c, chatContent b = some c → openai_chat (HttpOutcome.ok b) = Except.ok c.trim) ∧
    (GenerationFailure.Network ≠ GenerationFailure.MalformedResponse ∧
      GenerationFailure.Timeout ≠ GenerationFailure.MalformedResponse ∧
      GenerationFailure.UpstreamError ≠ GenerationFailure.MalformedResponse) ∧
    (∀ s dec, openai_image (HttpOutcome.httpError s) dec =
      Except.error GenerationFailure.UpstreamError) ∧
    (∀ b dec, imageB64 b = none →
      openai_image (HttpOutcome.ok b) dec = Except.error GenerationFailure.MalformedResponse) := by
  refine ⟨rfl, rfl, fun s => rfl, rfl, ?_, ?_, by decide, fun s dec => rfl, ?_⟩
  · intro b h
    simp [openai_chat, h]
  · intro b c h
    simp [openai_chat, h]
  · intro b dec h
    simp [openai_image, h]

theorem failure_kinds_distinguish_witness :
    openai_chat (HttpOutcome.ok { choices := none }) =
      Except.error GenerationFailure.MalformedResponse :=
  failure_kinds_distinguish.2.2.2.2.1 { choices := none } rfl

/-- C8: for every non-empty topic string, each prompt built for that
request (the `caption` prompt and both `post` prompts) contains the topic
as a substring verbatim. -/
theorem prompts_contain_topic :
    ∀ t : String, t ≠ "" →
      containsSubstr t (caption_prompt t) ∧
      containsSubstr t (post_cap_prompt t) ∧
      containsSubstr t (post_img_prompt t) := by
  intro t _
  refine ⟨⟨VOICE ++ " Write one Instagram caption about: ",
      ". 1-2 short sentences. End with: \x27practical > perfect\x27. No emojis.", rfl⟩,
    ⟨VOICE ++ " Write 1–2 short sentences for Instagram about: ",
      ". Make it crisp, zero fluff. End with \x27practical > perfect\x27.", rfl⟩,
    ⟨STYLE_PROMPT ++ " Content text theme: ",
      ". Render as a clean poster (no photo).", rfl⟩⟩

theorem prompts_contain_topic_witness :
    containsSubstr "plaintext.daily" (caption_prompt "plaintext.daily") ∧
    containsSubstr "plaintext.daily" (post_cap_prompt "plaintext.daily") ∧
    containsSubstr "plaintext.daily" (post_img_prompt "plaintext.daily") :=
  prompts_contain_topic "plaintext.daily" (by decide)

/-- C9: with an empty argument list the topic falls back to the built-in
default topic string of each handler, every rendered prompt is non-empty,
and the topic itself is never empty; prompt construction is a total pure
function with no other failure mode. -/
theorem topic_default_nonempty :
    caption_topic [] = "a tiny workflow habit that compounds" ∧
    post_topic [] = "one simple framework to ship daily" ∧
    (∀ args : List String,
      caption_topic args ≠ "" ∧
      post_topic args ≠ "" ∧
      caption_prompt (caption_topic args) ≠ "" ∧
      post_cap_prompt (post_topic args) ≠ "" ∧
      post_img_prompt (post_topic args) ≠ "") := by
  refine ⟨rfl, rfl, ?_⟩
  intro args
  refine ⟨?_, ?_, ?_, ?_, ?_⟩
  · by_cases h : " ".intercalate args = "" <;> simp [caption_topic, h]
  · by_cases h : " ".intercalate args = "" <;> simp [post_topic, h]
  · exact append_ne_empty_right _ _ (by decide)
  · exact append_ne_empty_right _ _ (by decide)
  · exact append_ne_empty_right _ _ (by decide)

/-- C1: `add_logo_or_mark` never raises: it is total over every outcome of
the optional logo fetch.  With no logo configured, with a failed
fetch/decode, or with any compositing precondition violated, the result is
exactly the drawn fallback mark; in every remaining case it is the input
with the logo composited — so for every input image and every logo
outcome the call returns an image and no failure propagates. -/
theorem applyMark_never_raises :
    ∀ (env : Env) (font : Option (Nat × Nat)) (img : Image),
      (add_logo_or_mark env none font img = drawFallback env font img) ∧
      (∀ fetched, env.LOGO_URL = "" →
        add_logo_or_mark env fetched font img = drawFallback env font img) ∧
      (∀ fetched,
        add_logo_or_mark env fetched font img = drawFallback env font img ∨
        ∃ x y w h, add_logo_or_mark env fetched font img =
          { img with marks := img.marks ++ [Mark.logo x y w h] }) := by
  intro env font img
  exact ⟨applyMark_none_eq_fallback env font img,
    fun fetched h => applyMark_unset_eq_fallback env fetched font img h,
    fun fetched => applyMark_cases env fetched font img⟩

theorem applyMark_never_raises_witness :
    add_logo_or_mark defaultEnv
        (some { width := 10, height := 10, mode := PixMode.RGBA, marks := [] }) none
        { width := 1024, height := 1024, mode := PixMode.RGBA, marks := [] } =
      drawFallback defaultEnv none
        { width := 1024, height := 1024, mode := PixMode.RGBA, marks := [] } :=
  (applyMark_never_raises defaultEnv none
    { width := 1024, height := 1024, mode := PixMode.RGBA, marks := [] }).2.1
    (some { width := 10, height := 10, mode := PixMode.RGBA, marks := [] }) rfl

/-- C2 counterexample: on a 1024×1024 RGBA image with no logo configured,
the fallback mark is NOT a circle of radius 123 centered at (861, 861):
the source computes `int(1024 * 0.12) = 122` (truncation, not rounding),
so no such ellipse is drawn. -/
theorem fallback_mark_1024_not_radius_123 :
    ¬ containsCircle
      (add_logo_or_mark defaultEnv none none
        { width := 1024, height := 1024, mode := PixMode.RGBA, marks := [] })
      861 861 123 "#2F3435" := by
  decide

/-- C2 amended: on a 1024×1024 image with `logoUrl` unset the fallback
mark is a filled circle of radius 122 = ⌊0.12·1024⌋ (truncated, not
rounded) centered at (1024−122−40, 1024−122−40) = (862, 862); in general,
whenever the logo URL is unset the fallback circle has radius
r = ⌊12% of width⌋ and center (width−r−40, height−r−40), scaling with the
image dimensions up to the truncation. -/
theorem fallback_mark_radius_floor :
    containsCircle
      (add_logo_or_mark defaultEnv none none
        { width := 1024, height := 1024, mode := PixMode.RGBA, marks := [] })
      862 862 122 "#2F3435" ∧
    (∀ (env : Env) (fetched : Option Image) (font : Option (Nat × Nat)) (img : Image),
      env.LOGO_URL = "" →
      containsCircle (add_logo_or_mark env fetched font img)
        ((img.width : Int) - (img.width * 12 / 100 : Nat) - 40)
        ((img.height : Int) - (img.width * 12 / 100 : Nat) - 40)
        (img.width * 12 / 100 : Nat) env.BRAND_PRIMARY) := by
  constructor
  · decide
  · intro env fetched font img h
    rw [applyMark_unset_eq_fallback env fetched font img h]
    exact drawFallback_contains_circle env font img

theorem fallback_mark_radius_floor_witness :
    defaultEnv.LOGO_URL = "" ∧
    containsCircle
      (add_logo_or_mark defaultEnv none none
        { width := 800, height := 600, mode := PixMode.RGBA, marks := [] })
      664 464 96 "#2F3435" :=
  ⟨rfl, fallback_mark_radius_floor.2 defaultEnv none none
    { width := 800, height := 600, mode := PixMode.RGBA, marks := [] } rfl⟩

theorem openai_image_ok_mode (outcome : HttpOutcome ImageBody)
    (decode : String → Option Image) (im : Image)
    (h : openai_image outcome decode = Except.ok im) : im.mode = PixMode.RGBA := by
  cases outcome with
  | netError => simp [openai_image] at h
  | timeout => simp [openai_image] at h
  | httpError s => simp [openai_image] at h
  | invalidJson => simp [openai_image] at h
  | ok b =>
    cases hb : imageB64 b with
    | none => simp [openai_image, hb] at h
    | some s =>
      cases hd : decode s with
      | none => simp [openai_image, hb, hd] at h
      | some im0 =>
        simp [openai_image, hb, hd] at h
        rw [← h]
        rfl

/-- C5: the image step always yields RGBA: `add_logo_or_mark` preserves
the pixel mode on both the logo path and the fallback path, every image
the image client returns is RGBA (it is converted on decode), and hence
the image of every `PostArtifact` a successful `post` run delivers is
RGBA. -/
theorem image_mode_always_RGBA :
    (∀ (env : Env) (fetched : Option Image) (font : Option (Nat × Nat)) (img : Image),
      (add_logo_or_mark env fetched font img).mode = img.mode) ∧
    (∀ (outcome : HttpOutcome ImageBody) (decode : String → Option Image) (im : Image),
      openai_image outcome decode = Except.ok im → im.mode = PixMode.RGBA) ∧
    (∀ (env : Env) (args : List String) (chat : String → Except GenerationFailure String)
      (imgOutcome : String → HttpOutcome ImageBody) (decode : String → Option Image)
      (fetched : Option Image) (font : Option (Nat × Nat)) (a : PostArtifact),
      post env args chat (fun p => openai_image (imgOutcome p) decode) fetched font =
        Except.ok a →
      a.image.mode = PixMode.RGBA) := by
  refine ⟨fun env fetched font img => applyMark_mode env fetched font img,
    fun outcome decode im h => openai_image_ok_mode outcome decode im h, ?_⟩
  intro env args chat imgOutcome decode fetched font a h
  unfold post at h
  cases hchat : chat (post_cap_prompt (post_topic args)) with
  | error e => simp [hchat] at h
  | ok c =>
    simp only [hchat] at h
    cases himg : openai_image (imgOutcome (post_img_prompt (post_topic args))) decode with
    | error e => simp [himg] at h
    | ok i =>
      simp only [himg] at h
      cases h
      have h1 := applyMark_mode env fetched font i
      have h2 := openai_image_ok_mode _ decode i himg
      simp [h1, h2]

theorem image_mode_always_RGBA_witness :
    openai_image (HttpOutcome.ok { data := some [{ b64_json := some "AAAA" }] })
        (fun _ => some { width := 10, height := 10, mode := PixMode.RGB, marks := [] }) =
      Except.ok { width := 10, height := 10, mode := PixMode.RGBA, marks := [] } ∧
    ({ width := 10, height := 10, mode := PixMode.RGBA, marks := [] } : Image).mode =
      PixMode.RGBA :=
  ⟨rfl, image_mode_always_RGBA.2.1
    (HttpOutcome.ok { data := some [{ b64_json := some "AAAA" }] })
    (fun _ => some { width := 10, height := 10, mode := PixMode.RGB, marks := [] })
    { width := 10, height := 10, mode := PixMode.RGBA, marks := [] } rfl⟩

/-- C6: when the logo fetch and decode succeed (and compositing is
possible), the logo is resized to width w = ⌊16% of the base width⌋,
preserving aspect ratio by scaling the height with the same factor, and
alpha-composited at destination (width−w−40, height−h−40): inset exactly
40px from the right and bottom edges. -/
theorem logo_scaled_and_anchored :
    ∀ (env : Env) (logo : Image) (font : Option (Nat × Nat)) (img : Image) (w h : Nat),
      w = img.width * 16 / 100 →
      h = resizedHeight logo.width logo.height w →
      env.LOGO_URL ≠ "" →
      logo.width ≠ 0 →
      img.mode = PixMode.RGBA →
      w + 40 ≤ img.width →
      h + 40 ≤ img.height →
      add_logo_or_mark env (some logo) font img =
        { img with marks := img.marks ++
            [Mark.logo (img.width - w - 40) (img.height - h - 40) w h] } ∧
      (img.width - w - 40) + w + 40 = img.width ∧
      (img.height - h - 40) + h + 40 = img.height := by
  intro env logo font img w h hw hh hurl hlw hmode hwle hhle
  subst hw hh
  refine ⟨?_, by omega, by omega⟩
  simp only [add_logo_or_mark, Image.copy]
  rw [if_pos hurl]
  rw [if_neg hlw]
  have hx : (0 : Int) ≤ (img.width : Int) - (img.width * 16 / 100 : Nat) - 40 := by omega
  have hy : (0 : Int) ≤ (img.height : Int) -
      (resizedHeight logo.width logo.height (img.width * 16 / 100) : Nat) - 40 := by omega
  rw [if_pos ⟨hmode, hx, hy⟩]
  have hxn : ((img.width : Int) - (img.width * 16 / 100 : Nat) - 40).toNat =
      img.width - img.width * 16 / 100 - 40 := by omega
  have hyn : ((img.height : Int) -
      (resizedHeight logo.width logo.height (img.width * 16 / 100) : Nat) - 40).toNat =
      img.height - resizedHeight logo.width logo.height (img.width * 16 / 100) - 40 := by
    omega
  rw [hxn, hyn]

theorem logo_scaled_and_anchored_witness :
    add_logo_or_mark ⟨"#2F3435", "#F4EFE2", "https://your-logo.png"⟩
      (some ⟨200, 100, PixMode.RGBA, []⟩) none ⟨1000, 1000, PixMode.RGBA, []⟩ =
      ⟨1000, 1000, PixMode.RGBA, [Mark.logo 800 880 160 80]⟩ :=
  ((logo_scaled_and_anchored ⟨"#2F3435", "#F4EFE2", "https://your-logo.png"⟩
    ⟨200, 100, PixMode.RGBA, []⟩ none ⟨1000, 1000, PixMode.RGBA, []⟩ 160 80
    rfl rfl (by decide) (by decide) rfl (by decide) (by decide)).1).trans (by decide)

/-- C3: a `Post` run either surfaces the `GenerationFailure` of whichever
generation client failed — the chat failure aborts before the image call,
an image failure aborts before compositing — or returns a `PostArtifact`
that bundles both the caption (with the hashtag block, hence non-empty)
and the composited image from the same run; no partially-populated
artifact is ever delivered. -/
theorem post_no_partial_artifact :
    (∀ (env : Env) (args : List String) (chat : String → Except GenerationFailure String)
      (image : String → Except GenerationFailure Image)
      (fetched : Option Image) (font : Option (Nat × Nat)) (e : GenerationFailure),
      chat (post_cap_prompt (post_topic args)) = Except.error e →
      post env args chat image fetched font = Except.error e) ∧
    (∀ (env : Env) (args : List String) (chat : String → Except GenerationFailure String)
      (image : String → Except GenerationFailure Image)
      (fetched : Option Image) (font : Option (Nat × Nat)) (c : String)
      (e : GenerationFailure),
      chat (post_cap_prompt (post_topic args)) = Except.ok c →
      image (post_img_prompt (post_topic args)) = Except.error e →
      post env args chat image fetched font = Except.error e) ∧
    (∀ (env : Env) (args : List String) (chat : String → Except GenerationFailure String)
      (image : String → Except GenerationFailure Image)
      (fetched : Option Image) (font : Option (Nat × Nat)) (a : PostArtifact),
      post env args chat image fetched font = Except.ok a →
      ∃ c i, chat (post_cap_prompt (post_topic args)) = Except.ok c ∧
        image (post_img_prompt (post_topic args)) = Except.ok i ∧
        a = { caption := c ++ "\n\n" ++ HASHTAGS,
              image := add_logo_or_mark env fetched font i } ∧
        a.caption ≠ "") := by
  refine ⟨?_, ?_, ?_⟩
  · intro env args chat image fetched font e h
    simp [post, h]
  · intro env args chat image fetched font c e h1 h2
    simp [post, h1, h2]
  · intro env args chat image fetched font a h
    unfold post at h
    cases hchat : chat (post_cap_prompt (post_topic args)) with
    | error e => simp [hchat] at h
    | ok c =>
      simp only [hchat] at h
      cases himg : image (post_img_prompt (post_topic args)) with
      | error e => simp [himg] at h
      | ok i =>
        simp only [himg] at h
        cases h
        exact ⟨c, i, rfl, rfl, rfl, append_ne_empty_right _ _ (by decide)⟩

theorem post_no_partial_artifact_witness :
    post defaultEnv [] (fun _ => Except.error GenerationFailure.Timeout)
        (fun _ => Except.error GenerationFailure.Network) none none =
      Except.error GenerationFailure.Timeout :=
  post_no_partial_artifact.1 defaultEnv []
    (fun _ => Except.error GenerationFailure.Timeout)
    (fun _ => Except.error GenerationFailure.Network) none none
    GenerationFailure.Timeout rfl

theorem fallbackBuf_spec (env : Env) (font : Option (Nat × Nat)) (s : BufState) :
    fallbackBuf env font s BufId.work =
      { callerBuf := s.callerBuf, workBuf := drawFallback env font s.workBuf } := by
  unfold fallbackBuf drawFallback BufState.read BufState.write
  cases font with
  | none => rfl
  | some p => cases p with | mk tw th => rfl

theorem add_logo_or_mark_buf_spec (env : Env) (fetched : Option Image)
    (font : Option (Nat × Nat)) (input : Image) :
    add_logo_or_mark_buf env fetched font input =
      { callerBuf := input, workBuf := add_logo_or_mark env fetched font input } := by
  simp only [add_logo_or_mark_buf, add_logo_or_mark, Image.copy, BufState.read,
    BufState.write]
  by_cases hurl : env.LOGO_URL ≠ ""
  · rw [if_pos hurl, if_pos hurl]
    cases fetched with
    | none => exact fallbackBuf_spec env font ⟨input, input⟩
    | some logo =>
      dsimp only
      by_cases hlw : logo.width = 0
      · rw [if_pos hlw, if_pos hlw]
        exact fallbackBuf_spec env font ⟨input, input⟩
      · rw [if_neg hlw, if_neg hlw]
        by_cases hc : input.mode = PixMode.RGBA ∧
            (0 : Int) ≤ (input.width : Int) - (input.width * 16 / 100 : Nat) - 40 ∧
            (0 : Int) ≤ (input.height : Int) -
              (resizedHeight logo.width logo.height (input.width * 16 / 100) : Nat) - 40
        · rw [if_pos hc, if_pos hc]
        · rw [if_neg hc, if_neg hc]
          exact fallbackBuf_spec env font ⟨input, input⟩
  · rw [if_neg hurl, if_neg hurl]
    exact fallbackBuf_spec env font ⟨input, input⟩

/-- C10: `add_logo_or_mark` never mutates its input image: at the buffer
level, line 109 rebinds the local name to a fresh copy, every mutating
PIL call targets that copy, so the caller's buffer is unchanged after the
call on both the logo and the fallback path, while the returned work
buffer holds exactly the value-level result. -/
theorem applyMark_no_input_mutation :
    ∀ (env : Env) (fetched : Option Image) (font : Option (Nat × Nat)) (input : Image),
      (add_logo_or_mark_buf env fetched font input).callerBuf = input ∧
      (add_logo_or_mark_buf env fetched font input).read BufId.work =
        add_logo_or_mark env fetched font input := by
  intro env fetched font input
  rw [add_logo_or_mark_buf_spec env fetched font input]
  exact ⟨rfl, rfl⟩
